import Mathlib

/-!
# metrics-mvp: the action layer `frontend/src/actions/index.js`

A shallow embedding of the thunk action creators of the transit-analytics
front end, and the properties of its specification that concern them.

* JavaScript values are the inductive `JSVal`; objects are association lists
  read as a sequence of property definitions (a later definition of a key
  shadows an earlier one, as in an object literal).
* Query parameters (`graphParams`) are objects whose values are `null` or a
  string, the way the source uses them (`dateStr.replace`, template literals);
  an absent key reads as `undefined`.
* A thunk is a function on a `World`: the store state together with the log of
  what the thunk did (plain actions dispatched, thunks dispatched, `axios.get`
  calls).  A synchronous exception is returned next to the world.
* A promise chain `.then(f).catch(g)` is the `Handler` attached to the request;
  `settleWith` gives the calls of `dispatch` the chain makes once the request
  has an outcome.  An exception thrown by `f` reaches `g`, be it thrown by a
  property read or by the call of `dispatch` inside `f`: which calls of
  `dispatch` throw, and what, is an argument of `settleWith`.  `settle` is the
  chain on a store whose `dispatch` does not throw.
* Inside a thunk the reducer is a total function: the synchronous calls of
  `dispatch` do not throw.
* `axios` resolves with a response object and rejects with an error object;
  what these objects hold (the body, the fields of the error) is arbitrary.
* Collaborators that are imported from other modules (`metricsBaseURL`,
  `getTimePath`, `getStatPath`, the reducer) are parameters.
-/

namespace MetricsMvp

/-! ## JavaScript values -/

/-- JavaScript values (numbers restricted to integers). -/
inductive JSVal where
  | undefined : JSVal
  | null : JSVal
  | bool (b : Bool) : JSVal
  | num (n : Int) : JSVal
  | str (s : String) : JSVal
  | arr (items : List JSVal) : JSVal
  | obj (fields : List (String × JSVal)) : JSVal

/-- Objects holding arbitrary values: response bodies, error objects, caches. -/
abbrev Obj := List (String × JSVal)

/-- Truthiness, as tested by `if (v)`, `!v`, `a && b` and `c ? x : y`. -/
def truthy : JSVal → Bool
  | .undefined => false
  | .null => false
  | .bool b => b
  | .num n => n != 0
  | .str s => s != ""
  | .arr _ => true
  | .obj _ => true

/-- Value of a key in a sequence of property definitions: the last one wins. -/
def lookupLast {α : Type} : List (String × α) → String → Option α
  | [], _ => none
  | (k', v) :: rest, k =>
    match lookupLast rest k with
    | some w => some w
    | none => if k' = k then some v else none

/-- Property read `o[k]` / `o.k` on an object: `undefined` when absent. -/
def Obj.get (o : Obj) (k : String) : JSVal :=
  match lookupLast o k with
  | some v => v
  | none => .undefined

/-- Property write `o[k] = v`. -/
def Obj.set (o : Obj) (k : String) (v : JSVal) : Obj := o ++ [(k, v)]

/-- The value thrown by a failed property read or method call. -/
def typeError (msg : String) : JSVal :=
  .obj [("name", .str "TypeError"), ("message", .str msg)]

/-- Property read `v.k` on an arbitrary value: throws on `undefined` and
`null`, reads the field of an object, and is `undefined` on the other values
(the keys read by this module are not properties of the built-in prototypes). -/
def getProp (v : JSVal) (k : String) : Except JSVal JSVal :=
  match v with
  | .undefined => .error (typeError ("Cannot read properties of undefined (reading " ++ k ++ ")"))
  | .null => .error (typeError ("Cannot read properties of null (reading " ++ k ++ ")"))
  | .obj fields => .ok (Obj.get fields k)
  | _ => .ok .undefined

mutual
/-- String conversion, as performed by a template literal or by `+` next to a
string. -/
def toStr : JSVal → String
  | .undefined => "undefined"
  | .null => "null"
  | .bool true => "true"
  | .bool false => "false"
  | .num n => toString n
  | .str s => s
  | .arr items => joinItems items
  | .obj _ => "[object Object]"
/-- Array conversion: the items joined by commas, `null` and `undefined`
rendered empty. -/
def joinItems : List JSVal → String
  | [] => ""
  | [.undefined] => ""
  | [.null] => ""
  | [v] => toStr v
  | .undefined :: rest => "," ++ joinItems rest
  | .null :: rest => "," ++ joinItems rest
  | v :: rest => toStr v ++ "," ++ joinItems rest
end

/-- Every dash of a string replaced by a slash. -/
def dashesToSlashes (s : String) : String :=
  String.mk (s.data.map (fun c => if c = '-' then '/' else c))

/-- The call `dateStr.replace` with the global dash pattern and a slash as
replacement.  Only a string has the method; on any other value of this model
the call throws. -/
def replaceDashes : JSVal → Except JSVal String
  | .str s => .ok (dashesToSlashes s)
  | .undefined => .error (typeError "Cannot read properties of undefined (reading replace)")
  | .null => .error (typeError "Cannot read properties of null (reading replace)")
  | _ => .error (typeError "dateStr.replace is not a function")

/-! ## Query parameters -/

/-- Value of a query parameter: `null` (unset) or a string. -/
inductive QVal where
  | null : QVal
  | str (s : String) : QVal
  deriving DecidableEq, Repr

/-- The JavaScript value of a query-parameter value. -/
def QVal.toJS : QVal → JSVal
  | .null => .null
  | .str s => .str s

/-- A `graphParams` object (also the `params` of a metrics request). -/
abbrev Params := List (String × QVal)

/-- Property read `params.k`: `undefined` when the key is absent. -/
def Params.get (p : Params) (k : String) : JSVal :=
  match lookupLast p k with
  | some v => v.toJS
  | none => .undefined

/-- Whether the object has the key `k` as an own property. -/
def Params.hasKey (p : Params) (k : String) : Bool := p.any (fun kv => kv.1 == k)

/-- Property write `p[k] = v`. -/
def Params.set (p : Params) (k : String) (v : QVal) : Params := p ++ [(k, v)]

/-- The statement `delete p.k`. -/
def Params.delete (p : Params) (k : String) : Params := p.filter (fun kv => kv.1 != k)

/-- The call `Object.assign(target, source)`: every own property of `source`
is written to `target`, in order. -/
def Params.assign (target source : Params) : Params :=
  source.foldl (fun t kv => Params.set t kv.1 kv.2) target

/-- The params object as a JavaScript value. -/
def Params.toJS (p : Params) : JSVal := .obj (p.map (fun kv => (kv.1, kv.2.toJS)))

/-! ## Actions, requests and the store -/

/-- A plain action object `{ type, payload }` or `{ type, payload, graphParams }`. -/
structure Action where
  type : String
  payload : JSVal
  graphParams : Option Params

/-- The promise chain attached to a request, with the variables it captures. -/
inductive Handler where
  | graphData (params : Params) : Handler
  | intervalData (params : Params) : Handler
  | routes : Handler
  | tripTimes (dateStr : JSVal) (timeStr : String) : Handler
  | waitTimes (dateStr : JSVal) (timeStr : String) : Handler
  | arrivals (dateStr : JSVal) (routeId : JSVal) : Handler

/-- The second argument of `axios.get(url, config)`. -/
structure AxiosConfig where
  params : Params
  baseURL : JSVal

/-- One call of `axios.get`. -/
structure Request where
  url : String
  config : Option AxiosConfig
  handler : Handler

/-- How a request ends: the promise resolves with a response object or is
rejected with an error object. -/
inductive Outcome where
  | resolved (response : Obj) : Outcome
  | rejected (err : Obj) : Outcome

/-- The slice `getState().routes` read by this module. -/
structure RoutesState where
  graphParams : Params
  tripTimesCache : Obj
  waitTimesCache : Obj

/-- The store state. -/
structure State where
  routes : RoutesState

/-- What a thunk does, in order. -/
inductive Effect where
  | dispatch (action : Action) : Effect
  | thunk (name : String) (args : List JSVal) : Effect
  | request (req : Request) : Effect

/-- The store state and the log of effects so far. -/
structure World where
  state : State
  log : List Effect

/-- The imports of the module. -/
structure Env where
  metricsBaseURL : JSVal
  getTimePath : String → String
  getStatPath : String → String

/-- The body of a thunk: the world after it ran, and the exception it threw,
if any. -/
abbrev Thunk := World → World × Option JSVal

/-- The call `dispatch(action)` with a plain action: the reducer runs. -/
def dispatch (reducer : State → Action → State) (a : Action) (w : World) : World :=
  { state := reducer w.state a, log := w.log ++ [Effect.dispatch a] }

/-- The call `dispatch(thunk)`: the thunk middleware runs the body. -/
def dispatchThunk (name : String) (args : List JSVal) (body : Thunk) : Thunk :=
  fun w => body { w with log := w.log ++ [Effect.thunk name args] }

/-- The call `axios.get(...)` with its `.then(...).catch(...)` chain. -/
def axiosGet (req : Request) (w : World) : World :=
  { w with log := w.log ++ [Effect.request req] }

/-- Two statements in sequence: an exception in the first skips the second. -/
def Thunk.seq (f g : Thunk) : Thunk :=
  fun w =>
    match f w with
    | (w1, some e) => (w1, some e)
    | (w1, none) => g w1

/-- The plain actions of a log. -/
def actionsOf : List Effect → List Action
  | [] => []
  | Effect.dispatch a :: rest => a :: actionsOf rest
  | _ :: rest => actionsOf rest

/-- The requests of a log. -/
def requestsOf : List Effect → List Request
  | [] => []
  | Effect.request r :: rest => r :: requestsOf rest
  | _ :: rest => requestsOf rest

/-- The thunks dispatched in a log, by name. -/
def thunksOf : List Effect → List String
  | [] => []
  | Effect.thunk n _ :: rest => n :: thunksOf rest
  | _ :: rest => thunksOf rest

/-! ## The action creators -/

/-- The exported constant `routesUrl`. -/
def routesUrl : String :=
  "https://opentransit-precomputed-stats.s3.amazonaws.com/routes_v2_sf-muni.json.gz"

/-- The expression `err.response && err.response.data && err.response.data.error
? err.response.data.error : err.message` of the two metrics `.catch` handlers.
Every property read is guarded by the truthiness of the value it reads from. -/
def errStr (err : Obj) : Except JSVal JSVal :=
  let response := Obj.get err "response"
  if truthy response then
    match getProp response "data" with
    | .error e => .error e
    | .ok data =>
      if truthy data then
        match getProp data "error" with
        | .error e => .error e
        | .ok error => if truthy error then .ok error else .ok (Obj.get err "message")
      else .ok (Obj.get err "message")
  else .ok (Obj.get err "message")

/-- The same expression on the value caught by `.catch` when it is whatever
the `.then` handler threw: the read `err.response` throws on `undefined` and
`null` and is `undefined` on the other values that are not objects, and so is
`err.message`. -/
def errStrOfThrown (err : JSVal) : Except JSVal JSVal :=
  match err with
  | .obj fields => errStr fields
  | .undefined => .error (typeError "Cannot read properties of undefined (reading response)")
  | .null => .error (typeError "Cannot read properties of null (reading response)")
  | _ => .ok .undefined

/-- The `.catch` handler of the two metrics chains on a value thrown inside
`.then`: it dispatches the error event of the given type, unless building the
payload throws. -/
def metricsCatch (type : String) (err : JSVal) : List Action :=
  match errStrOfThrown err with
  | .ok s => [{ type := type, payload := s, graphParams := none }]
  | .error _ => []

/-- The calls of `dispatch` made by the `.then(...).catch(...)` chain of a
request once the request has an outcome, in order.  The argument `throws` tells
for each action whether the call `dispatch(action)` throws, and what.  An
exception thrown inside `.then`, by a property read or by `dispatch`, is handed
to `.catch`; an exception thrown inside `.catch` ends the chain. -/
def settleWith (throws : Action → Option JSVal) : Handler → Outcome → List Action
  | .graphData params, .resolved response =>
    match throws { type := "RECEIVED_GRAPH_DATA", payload := Obj.get response "data",
                   graphParams := some params } with
    | none =>
      [{ type := "RECEIVED_GRAPH_DATA", payload := Obj.get response "data",
         graphParams := some params }]
    | some e =>
      { type := "RECEIVED_GRAPH_DATA", payload := Obj.get response "data",
        graphParams := some params } :: metricsCatch "RECEIVED_GRAPH_ERROR" e
  | .graphData _, .rejected err =>
    match errStr err with
    | .ok s => [{ type := "RECEIVED_GRAPH_ERROR", payload := s, graphParams := none }]
    | .error _ => []
  | .intervalData params, .resolved response =>
    match throws { type := "RECEIVED_INTERVAL_DATA", payload := Obj.get response "data",
                   graphParams := some params } with
    | none =>
      [{ type := "RECEIVED_INTERVAL_DATA", payload := Obj.get response "data",
         graphParams := some params }]
    | some e =>
      { type := "RECEIVED_INTERVAL_DATA", payload := Obj.get response "data",
        graphParams := some params } :: metricsCatch "RECEIVED_INTERVAL_ERROR" e
  | .intervalData _, .rejected err =>
    match errStr err with
    | .ok s => [{ type := "RECEIVED_INTERVAL_ERROR", payload := s, graphParams := none }]
    | .error _ => []
  | .routes, .resolved response =>
    match getProp (Obj.get response "data") "routes" with
    | .ok routes =>
      match throws { type := "RECEIVED_ROUTES", payload := routes, graphParams := none } with
      | none => [{ type := "RECEIVED_ROUTES", payload := routes, graphParams := none }]
      | some e =>
        [{ type := "RECEIVED_ROUTES", payload := routes, graphParams := none },
         { type := "RECEIVED_ROUTES_ERROR", payload := e, graphParams := none }]
    | .error e => [{ type := "RECEIVED_ROUTES_ERROR", payload := e, graphParams := none }]
  | .routes, .rejected err =>
    [{ type := "RECEIVED_ROUTES_ERROR", payload := .obj err, graphParams := none }]
  | .tripTimes dateStr timeStr, .resolved response =>
    [{ type := "RECEIVED_PRECOMPUTED_TRIP_TIMES",
       payload := .arr [Obj.get response "data", .str (toStr dateStr ++ timeStr ++ "median")],
       graphParams := none }]
  | .tripTimes _ _, .rejected _ => []
  | .waitTimes dateStr timeStr, .resolved response =>
    [{ type := "RECEIVED_PRECOMPUTED_WAIT_TIMES",
       payload := .arr [Obj.get response "data", .str (toStr dateStr ++ timeStr ++ "median")],
       graphParams := none }]
  | .waitTimes _ _, .rejected _ => []
  | .arrivals dateStr routeId, .resolved response =>
    [{ type := "RECEIVED_ARRIVALS",
       payload := .arr [Obj.get response "data", dateStr, routeId],
       graphParams := none }]
  | .arrivals _ _, .rejected _ => []

/-- A `dispatch` that never throws. -/
def neverThrows : Action → Option JSVal := fun _ => none

/-- A `dispatch` that throws `e` on the actions of one type, as when the reducer
or a subscriber fails on them. -/
def throwsOn (type : String) (e : JSVal) : Action → Option JSVal :=
  fun a => if a.type = type then some e else none

/-- The actions dispatched by the chain of a request on a store whose
`dispatch` does not throw. -/
def settle (h : Handler) (o : Outcome) : List Action := settleWith neverThrows h o

/-- The thunk returned by `fetchGraphData(params)`. -/
def fetchGraphData (env : Env) (params : Params) : Thunk :=
  fun w =>
    (axiosGet { url := "/api/metrics",
                config := some { params := params, baseURL := env.metricsBaseURL },
                handler := .graphData params } w, none)

/-- The thunk returned by `resetGraphData()`. -/
def resetGraphData (reducer : State → Action → State) : Thunk :=
  fun w => (dispatch reducer { type := "RESET_GRAPH_DATA", payload := .null, graphParams := none } w, none)

/-- The thunk returned by `fetchIntervalData(params)`. -/
def fetchIntervalData (env : Env) (params : Params) : Thunk :=
  fun w =>
    (axiosGet { url := "/api/metrics_by_interval",
                config := some { params := params, baseURL := env.metricsBaseURL },
                handler := .intervalData params } w, none)

/-- The thunk returned by `resetIntervalData()`. -/
def resetIntervalData (reducer : State → Action → State) : Thunk :=
  fun w => (dispatch reducer { type := "RESET_INTERVAL_DATA", payload := .null, graphParams := none } w, none)

/-- The thunk returned by `fetchRoutes()`. -/
def fetchRoutes : Thunk :=
  fun w => (axiosGet { url := routesUrl, config := none, handler := .routes } w, none)

/-- The local `timeStr` of `fetchPrecomputedWaitAndTripData`. -/
def timeStrOf (params : Params) : String :=
  if truthy (params.get "startTime") then
    toStr (params.get "startTime") ++ "-" ++ toStr (params.get "endTime")
  else ""

/-- The cache key: the template literal with `dateStr + timeStr` followed by
`median`. -/
def cacheKey (params : Params) : String :=
  toStr (params.get "date") ++ timeStrOf params ++ "median"

/-- The S3 address of a precomputed statistic of the given kind (`trip-times`
or `wait-times`); `datePath` is the date with its dashes replaced. -/
def precomputedUrl (kind datePath : String) (dateStr : JSVal) (statPath timePath : String) : String :=
  "https://opentransit-precomputed-stats.s3.amazonaws.com/" ++ kind ++ "/v1/sf-muni/" ++ datePath
    ++ "/" ++ kind ++ "_v1_sf-muni_" ++ toStr dateStr ++ "_" ++ statPath ++ timePath ++ ".json.gz"

/-- The first block of `fetchPrecomputedWaitAndTripData`: the trip times. -/
def fetchTripTimes (env : Env) (params : Params) : Thunk :=
  fun w =>
    let timeStr := timeStrOf params
    let dateStr := params.get "date"
    let tripTimes := Obj.get w.state.routes.tripTimesCache (toStr dateStr ++ timeStr ++ "median")
    if !truthy tripTimes then
      let timePath := env.getTimePath timeStr
      let statPath := env.getStatPath "median"
      match replaceDashes dateStr with
      | .error e => (w, some e)
      | .ok datePath =>
        (axiosGet { url := precomputedUrl "trip-times" datePath dateStr statPath timePath,
                    config := none,
                    handler := .tripTimes dateStr timeStr } w, none)
    else (w, none)

/-- The second block of `fetchPrecomputedWaitAndTripData`: the wait times. -/
def fetchWaitTimes (env : Env) (params : Params) : Thunk :=
  fun w =>
    let timeStr := timeStrOf params
    let dateStr := params.get "date"
    let waitTimes := Obj.get w.state.routes.waitTimesCache (toStr dateStr ++ timeStr ++ "median")
    if !truthy waitTimes then
      let timePath := env.getTimePath timeStr
      let statPath := env.getStatPath "median"
      match replaceDashes dateStr with
      | .error e => (w, some e)
      | .ok datePath =>
        (axiosGet { url := precomputedUrl "wait-times" datePath dateStr statPath timePath,
                    config := none,
                    handler := .waitTimes dateStr timeStr } w, none)
    else (w, none)

/-- The thunk returned by `fetchPrecomputedWaitAndTripData(params)`. -/
def fetchPrecomputedWaitAndTripData (env : Env) (params : Params) : Thunk :=
  Thunk.seq (fetchTripTimes env params) (fetchWaitTimes env params)

/-- The S3 address built by `fetchArrivals`. -/
def arrivalsUrl (datePath : String) (dateStr routeId : JSVal) : String :=
  "https://opentransit-stop-arrivals.s3.amazonaws.com/v4/sf-muni/" ++ datePath
    ++ "/arrivals_v4_sf-muni_" ++ toStr dateStr ++ "_" ++ toStr routeId ++ ".json.gz"

/-- The thunk returned by `fetchArrivals(params)`; the route is read from
`params.route_id`. -/
def fetchArrivals (params : Params) : Thunk :=
  fun w =>
    let dateStr := params.get "date"
    match replaceDashes dateStr with
    | .error e => (w, some e)
    | .ok datePath =>
      (axiosGet { url := arrivalsUrl datePath dateStr (params.get "route_id"),
                  config := none,
                  handler := .arrivals dateStr (params.get "route_id") } w, none)

/-- The thunk returned by `handleSpiderMapClick(stops, latLng)`. -/
def handleSpiderMapClick (reducer : State → Action → State) (stops latLng : JSVal) : Thunk :=
  fun w =>
    (dispatch reducer { type := "RECEIVED_SPIDER_MAP_CLICK", payload := .arr [stops, latLng],
                        graphParams := none } w, none)

/-- The thunk returned by `fetchData(graphParams, intervalParams)`. -/
def fetchData (env : Env) (graphParams intervalParams : Params) : Thunk :=
  Thunk.seq (dispatchThunk "fetchGraphData" [graphParams.toJS] (fetchGraphData env graphParams))
    (dispatchThunk "fetchIntervalData" [intervalParams.toJS] (fetchIntervalData env intervalParams))

/-- The local `intervalParams` of `handleGraphParams`: a copy of `graphParams`
with `startTime` and `endTime` deleted. -/
def intervalParamsOf (graphParams : Params) : Params :=
  Params.delete (Params.delete (Params.assign [] graphParams) "startTime") "endTime"

/-- The condition `graphParams.routeId && graphParams.directionId &&
graphParams.startStopId && graphParams.endStopId`. -/
def allProvided (graphParams : Params) : Bool :=
  truthy (graphParams.get "routeId") && truthy (graphParams.get "directionId")
    && truthy (graphParams.get "startStopId") && truthy (graphParams.get "endStopId")

/-- The last statement of `handleGraphParams`: the combined fetch, or the two
resets. -/
def fetchOrReset (env : Env) (reducer : State → Action → State) (graphParams : Params) : Thunk :=
  if allProvided graphParams then
    dispatchThunk "fetchData" [graphParams.toJS, (intervalParamsOf graphParams).toJS]
      (fetchData env graphParams (intervalParamsOf graphParams))
  else
    Thunk.seq (dispatchThunk "resetGraphData" [] (resetGraphData reducer))
      (dispatchThunk "resetIntervalData" [] (resetIntervalData reducer))

/-- The action dispatched first by `handleGraphParams(params)`. -/
def receivedGraphParams (params : Params) : Action :=
  { type := "RECEIVED_GRAPH_PARAMS", payload := params.toJS, graphParams := none }

/-- The thunk returned by `handleGraphParams(params)`. -/
def handleGraphParams (env : Env) (reducer : State → Action → State) (params : Params) : Thunk :=
  fun w =>
    let w1 := dispatch reducer (receivedGraphParams params) w
    let graphParams := w1.state.routes.graphParams
    Thunk.seq
      (if truthy (graphParams.get "date") then
        dispatchThunk "fetchPrecomputedWaitAndTripData" [graphParams.toJS]
          (fetchPrecomputedWaitAndTripData env graphParams)
      else fun w2 => (w2, none))
      (fetchOrReset env reducer graphParams) w1

/-- A request reaches its outcome: the chain attached to it dispatches its
actions. -/
def deliver (reducer : State → Action → State) (h : Handler) (o : Outcome) (w : World) : World :=
  (settle h o).foldl (fun w1 a => dispatch reducer a w1) w

/-! ## A concrete store, for evaluation -/

/-- Reads the entries of an object back as query parameters (entries that are
neither `null` nor a string are dropped). -/
def paramsOfFields : List (String × JSVal) → Params
  | [] => []
  | (k, .null) :: rest => (k, QVal.null) :: paramsOfFields rest
  | (k, .str s) :: rest => (k, QVal.str s) :: paramsOfFields rest
  | _ :: rest => paramsOfFields rest

/-- A reducer in the style of the application: `RECEIVED_GRAPH_PARAMS` merges
the payload into `graphParams`, and the two precomputed-statistics events
store their payload under the key they carry. -/
def sampleReducer (s : State) (a : Action) : State :=
  if a.type = "RECEIVED_GRAPH_PARAMS" then
    match a.payload with
    | .obj fields =>
      { routes := { s.routes with
          graphParams := Params.assign s.routes.graphParams (paramsOfFields fields) } }
    | _ => s
  else if a.type = "RECEIVED_PRECOMPUTED_TRIP_TIMES" then
    match a.payload with
    | .arr [data, .str key] =>
      { routes := { s.routes with tripTimesCache := Obj.set s.routes.tripTimesCache key data } }
    | _ => s
  else if a.type = "RECEIVED_PRECOMPUTED_WAIT_TIMES" then
    match a.payload with
    | .arr [data, .str key] =>
      { routes := { s.routes with waitTimesCache := Obj.set s.routes.waitTimesCache key data } }
    | _ => s
  else s

/-- The store before anything was selected or fetched. -/
def emptyWorld : World :=
  { state := { routes := { graphParams := [], tripTimesCache := [], waitTimesCache := [] } },
    log := [] }

/-- An environment whose path helpers follow the contract of the
specification: no time suffix for the empty time range, the token `median`
for the statistic. -/
def sampleEnv : Env :=
  { metricsBaseURL := .str "https://metrics.example",
    getTimePath := fun t => if t = "" then "" else "_" ++ t,
    getStatPath := fun stat => stat }

/-- Params with every field selected. -/
def fullParams : Params :=
  [("routeId", .str "14"), ("directionId", .str "1"), ("startStopId", .str "5551"),
   ("endStopId", .str "5557"), ("date", .str "2023-05-01"), ("startTime", .str "07:00"),
   ("endTime", .str "10:00")]

/-- The same day and time range as `fullParams`, for another route. -/
def otherRouteParams : Params :=
  [("routeId", .str "22"), ("directionId", .str "0"), ("startStopId", .str "3311"),
   ("endStopId", .str "3327"), ("date", .str "2023-05-01"), ("startTime", .str "07:00"),
   ("endTime", .str "10:00")]

/-- Params with only a date. -/
def dateOnlyParams : Params := [("date", .str "2023-05-01")]

/-- A graphParams object naming its route in `routeId`, as `handleGraphParams`
reads it. -/
def routeDayParams : Params := [("date", .str "2023-05-01"), ("routeId", .str "14")]

/-- The error of a request answered with status 500 and the body
`{error: X}`. -/
def serverError (X : String) : Obj :=
  [("message", .str "Request failed with status code 500"),
   ("response", .obj [("status", .num 500), ("data", .obj [("error", .str X)])])]

/-- The error of a request that got no response. -/
def networkError : Obj := [("message", .str "Network Error")]

/-- The store after a truthy trip-times payload was stored for `dateOnlyParams`. -/
def cachedWorld : World :=
  { state := { routes := { graphParams := [],
                           tripTimesCache := [("2023-05-01median", .obj [("routes", .obj [])])],
                           waitTimesCache := [] } },
    log := [] }

/-! ## Vocabulary of the statements -/

/-- A string of decimal digits. -/
def isDigits (s : String) : Bool := s.data.all Char.isDigit

/-- The trip-times request of `fetchPrecomputedWaitAndTripData` for the date
string `D`. -/
def tripTimesRequest (env : Env) (params : Params) (D : String) : Request :=
  { url := precomputedUrl "trip-times" (dashesToSlashes D) (.str D) (env.getStatPath "median")
      (env.getTimePath (timeStrOf params)),
    config := none,
    handler := .tripTimes (.str D) (timeStrOf params) }

/-- The wait-times request of `fetchPrecomputedWaitAndTripData` for the date
string `D`. -/
def waitTimesRequest (env : Env) (params : Params) (D : String) : Request :=
  { url := precomputedUrl "wait-times" (dashesToSlashes D) (.str D) (env.getStatPath "median")
      (env.getTimePath (timeStrOf params)),
    config := none,
    handler := .waitTimes (.str D) (timeStrOf params) }

/-- The requests `fetchPrecomputedWaitAndTripData` issues from a state, for
the date string `D`: one per kind whose cache entry is falsy. -/
def precomputedRequests (env : Env) (params : Params) (D : String) (s : State) : List Request :=
  (if truthy (Obj.get s.routes.tripTimesCache (cacheKey params)) then []
    else [tripTimesRequest env params D])
  ++ (if truthy (Obj.get s.routes.waitTimesCache (cacheKey params)) then []
    else [waitTimesRequest env params D])

/-- Whether a request is the trip-times request of the wait/trip fetcher. -/
def Request.isTripTimes (r : Request) : Bool :=
  match r.handler with
  | .tripTimes _ _ => true
  | _ => false

/-- Whether a request is the wait-times request of the wait/trip fetcher. -/
def Request.isWaitTimes (r : Request) : Bool :=
  match r.handler with
  | .waitTimes _ _ => true
  | _ => false

/-- The `/api/metrics` request of `fetchGraphData(params)`. -/
def graphRequest (env : Env) (params : Params) : Request :=
  { url := "/api/metrics",
    config := some { params := params, baseURL := env.metricsBaseURL },
    handler := .graphData params }

/-- The `/api/metrics_by_interval` request of `fetchIntervalData(params)`. -/
def intervalRequest (env : Env) (params : Params) : Request :=
  { url := "/api/metrics_by_interval",
    config := some { params := params, baseURL := env.metricsBaseURL },
    handler := .intervalData params }

/-- The action of `resetGraphData`. -/
def resetGraphAction : Action := { type := "RESET_GRAPH_DATA", payload := .null, graphParams := none }

/-- The action of `resetIntervalData`. -/
def resetIntervalAction : Action :=
  { type := "RESET_INTERVAL_DATA", payload := .null, graphParams := none }

/-! ## Lemmas on logs, objects and strings -/

theorem requestsOf_append (a b : List Effect) :
    requestsOf (a ++ b) = requestsOf a ++ requestsOf b := by
  induction a with
  | nil => rfl
  | cons e rest ih => cases e <;> simp [requestsOf, ih]

theorem actionsOf_append (a b : List Effect) :
    actionsOf (a ++ b) = actionsOf a ++ actionsOf b := by
  induction a with
  | nil => rfl
  | cons e rest ih => cases e <;> simp [actionsOf, ih]

theorem thunksOf_append (a b : List Effect) :
    thunksOf (a ++ b) = thunksOf a ++ thunksOf b := by
  induction a with
  | nil => rfl
  | cons e rest ih => cases e <;> simp [thunksOf, ih]

theorem requestsOf_map_request (rs : List Request) :
    requestsOf (rs.map Effect.request) = rs := by
  induction rs with
  | nil => rfl
  | cons r rest ih => simp [requestsOf, ih]

theorem actionsOf_map_request (rs : List Request) :
    actionsOf (rs.map Effect.request) = [] := by
  induction rs with
  | nil => rfl
  | cons r rest ih => simp [actionsOf, ih]

theorem thunksOf_map_request (rs : List Request) :
    thunksOf (rs.map Effect.request) = [] := by
  induction rs with
  | nil => rfl
  | cons r rest ih => simp [thunksOf, ih]

theorem lookupLast_append_singleton {α : Type} (l : List (String × α)) (k : String) (v : α) :
    lookupLast (l ++ [(k, v)]) k = some v := by
  induction l with
  | nil => simp [lookupLast]
  | cons kv rest ih =>
    obtain ⟨k1, v1⟩ := kv
    simp [lookupLast, ih]

theorem Obj.get_set_same (o : Obj) (k : String) (v : JSVal) : Obj.get (Obj.set o k v) k = v := by
  simp [Obj.get, Obj.set, lookupLast_append_singleton]

theorem map_dash_of_digits (l : List Char) (h : l.all Char.isDigit = true) :
    l.map (fun c => if c = '-' then '/' else c) = l := by
  induction l with
  | nil => rfl
  | cons c rest ih =>
    simp only [List.all_cons, Bool.and_eq_true] at h
    have hc : c ≠ '-' := by
      intro hc
      rw [hc] at h
      exact absurd h.1 (by decide)
    simp [hc, ih h.2]

theorem dashesToSlashes_date (y m d : String) (hy : isDigits y = true) (hm : isDigits m = true)
    (hd : isDigits d = true) :
    dashesToSlashes (y ++ "-" ++ m ++ "-" ++ d) = y ++ "/" ++ m ++ "/" ++ d := by
  unfold isDigits at hy hm hd
  unfold dashesToSlashes
  apply String.ext
  simp [String.data_append, map_dash_of_digits _ hy, map_dash_of_digits _ hm,
    map_dash_of_digits _ hd]

/-- A query parameter that passes the truthiness test is a non-empty string. -/
theorem Params.str_of_truthy (p : Params) (k : String) (h : truthy (p.get k) = true) :
    ∃ s : String, p.get k = .str s ∧ s ≠ "" := by
  unfold Params.get at h ⊢
  cases hl : lookupLast p k with
  | none => simp [hl, truthy] at h
  | some v =>
    cases v with
    | null => simp [hl, QVal.toJS, truthy] at h
    | str s =>
      refine ⟨s, by simp [QVal.toJS], ?_⟩
      simpa [hl, QVal.toJS, truthy] using h

/-! ## What each thunk does -/

/-- The wait/trip fetcher on a params object whose date is a string: it does
not throw, leaves the state alone and issues one request per falsy cache
entry. -/
theorem fetchPrecomputed_of_date (env : Env) (params : Params) (w : World) (D : String)
    (hdate : params.get "date" = .str D) :
    fetchPrecomputedWaitAndTripData env params w =
      ({ w with log := w.log ++ (precomputedRequests env params D w.state).map Effect.request },
        none) := by
  unfold precomputedRequests tripTimesRequest waitTimesRequest cacheKey
  rw [hdate]
  by_cases ht : truthy (Obj.get w.state.routes.tripTimesCache
      (toStr (.str D) ++ timeStrOf params ++ "median")) = true <;>
  by_cases hw : truthy (Obj.get w.state.routes.waitTimesCache
      (toStr (.str D) ++ timeStrOf params ++ "median")) = true <;>
  simp [fetchPrecomputedWaitAndTripData, Thunk.seq, fetchTripTimes, fetchWaitTimes, hdate,
    replaceDashes, ht, hw, axiosGet]

/-- The last statement of `handleGraphParams` never throws; it issues the two
metrics requests or dispatches the two resets. -/
theorem fetchOrReset_eq (env : Env) (reducer : State → Action → State) (gp : Params) (w : World) :
    fetchOrReset env reducer gp w =
      if allProvided gp then
        ({ w with log := w.log ++
            [Effect.thunk "fetchData" [gp.toJS, (intervalParamsOf gp).toJS],
             Effect.thunk "fetchGraphData" [gp.toJS],
             Effect.request (graphRequest env gp),
             Effect.thunk "fetchIntervalData" [(intervalParamsOf gp).toJS],
             Effect.request (intervalRequest env (intervalParamsOf gp))] }, none)
      else
        ({ state := reducer (reducer w.state resetGraphAction) resetIntervalAction,
           log := w.log ++
            [Effect.thunk "resetGraphData" [],
             Effect.dispatch resetGraphAction,
             Effect.thunk "resetIntervalData" [],
             Effect.dispatch resetIntervalAction] }, none) := by
  unfold fetchOrReset
  by_cases h : allProvided gp = true
  · simp [h, dispatchThunk, fetchData, Thunk.seq, fetchGraphData, fetchIntervalData, axiosGet,
      graphRequest, intervalRequest]
  · simp [h, dispatchThunk, Thunk.seq, resetGraphData, resetIntervalData, dispatch,
      resetGraphAction, resetIntervalAction]

/-- The effects of `handleGraphParams` after its first dispatch, when the
stored date is missing. -/
theorem handleGraphParams_no_date (env : Env) (reducer : State → Action → State)
    (params : Params) (w : World)
    (h : truthy ((reducer w.state (receivedGraphParams params)).routes.graphParams.get "date")
      = false) :
    handleGraphParams env reducer params w =
      fetchOrReset env reducer (reducer w.state (receivedGraphParams params)).routes.graphParams
        (dispatch reducer (receivedGraphParams params) w) := by
  simp [handleGraphParams, Thunk.seq, dispatch, h]

/-- The effects of `handleGraphParams` after its first dispatch, when the
stored date is the string `D`. -/
theorem handleGraphParams_date (env : Env) (reducer : State → Action → State)
    (params : Params) (w : World) (D : String)
    (h : truthy ((reducer w.state (receivedGraphParams params)).routes.graphParams.get "date")
      = true)
    (hD : (reducer w.state (receivedGraphParams params)).routes.graphParams.get "date" = .str D) :
    handleGraphParams env reducer params w =
      fetchOrReset env reducer (reducer w.state (receivedGraphParams params)).routes.graphParams
        { state := reducer w.state (receivedGraphParams params),
          log := w.log ++ [Effect.dispatch (receivedGraphParams params)]
            ++ [Effect.thunk "fetchPrecomputedWaitAndTripData"
                  [(reducer w.state (receivedGraphParams params)).routes.graphParams.toJS]]
            ++ (precomputedRequests env
                  (reducer w.state (receivedGraphParams params)).routes.graphParams D
                  (reducer w.state (receivedGraphParams params))).map Effect.request } := by
  simp [handleGraphParams, Thunk.seq, dispatch, h, dispatchThunk,
    fetchPrecomputed_of_date _ _ _ D hD]

theorem precomputedUrl_ne_metrics (kind datePath : String) (dateStr : JSVal)
    (statPath timePath : String) :
    precomputedUrl kind datePath dateStr statPath timePath ≠ "/api/metrics"
    ∧ precomputedUrl kind datePath dateStr statPath timePath ≠ "/api/metrics_by_interval" := by
  constructor <;>
  · intro h
    have h2 := congrArg String.data h
    simp [precomputedUrl, String.data_append] at h2

theorem precomputedRequests_spec (env : Env) (params : Params) (D : String) (s : State)
    (q : Request) (hq : q ∈ precomputedRequests env params D s) :
    (q.isTripTimes = true ∨ q.isWaitTimes = true)
    ∧ q.url ≠ "/api/metrics" ∧ q.url ≠ "/api/metrics_by_interval" := by
  unfold precomputedRequests at hq
  rcases List.mem_append.mp hq with h | h
  · split at h
    · simp at h
    · simp only [List.mem_singleton] at h
      subst h
      exact ⟨Or.inl rfl, precomputedUrl_ne_metrics _ _ _ _ _⟩
  · split at h
    · simp at h
    · simp only [List.mem_singleton] at h
      subst h
      exact ⟨Or.inr rfl, precomputedUrl_ne_metrics _ _ _ _ _⟩

theorem Params.assign_eq_append (t src : Params) : Params.assign t src = t ++ src := by
  unfold Params.assign
  induction src generalizing t with
  | nil => simp
  | cons kv rest ih =>
    rw [List.foldl_cons, ih]
    simp [Params.set]

theorem lookupLast_filter_ne {α : Type} (l : List (String × α)) (k k2 : String) (h : k2 ≠ k) :
    lookupLast (l.filter (fun kv => kv.1 != k)) k2 = lookupLast l k2 := by
  induction l with
  | nil => rfl
  | cons kv rest ih =>
    obtain ⟨k1, v1⟩ := kv
    by_cases hk : k1 = k
    · subst hk
      have hne : ¬ (k1 = k2) := fun e => h e.symm
      simp only [List.filter_cons, bne_self_eq_false, Bool.false_eq_true, if_false, lookupLast,
        ih, hne]
      cases lookupLast rest k2 <;> rfl
    · simp [List.filter_cons, lookupLast, ih, hk]

theorem Params.get_delete_ne (p : Params) (k k2 : String) (h : k2 ≠ k) :
    (Params.delete p k).get k2 = p.get k2 := by
  simp [Params.get, Params.delete, lookupLast_filter_ne _ _ _ h]

theorem Params.hasKey_delete_same (p : Params) (k : String) :
    (Params.delete p k).hasKey k = false := by
  simp [Params.hasKey, Params.delete]

theorem Params.hasKey_delete_ne (p : Params) (k k2 : String) (h : k2 ≠ k) :
    (Params.delete p k).hasKey k2 = p.hasKey k2 := by
  unfold Params.hasKey Params.delete
  induction p with
  | nil => rfl
  | cons kv rest ih =>
    obtain ⟨k1, v1⟩ := kv
    by_cases hk : k1 = k
    · subst hk
      have hne : ¬ (k1 = k2) := fun e => h e.symm
      simp [List.filter_cons, hne, ih]
    · simp [List.filter_cons, hk, ih]

/-- The interval params lack `startTime` and `endTime` and agree with the
graph params on every other key. -/
theorem intervalParamsOf_spec (gp : Params) :
    (intervalParamsOf gp).hasKey "startTime" = false
    ∧ (intervalParamsOf gp).hasKey "endTime" = false
    ∧ (intervalParamsOf gp).get "startTime" = .undefined
    ∧ (intervalParamsOf gp).get "endTime" = .undefined
    ∧ ∀ k : String, k ≠ "startTime" → k ≠ "endTime" →
        (intervalParamsOf gp).get k = gp.get k ∧ (intervalParamsOf gp).hasKey k = gp.hasKey k := by
  have hassign : Params.assign [] gp = gp := by simp [Params.assign_eq_append]
  have hkey : ∀ (p : Params) (k : String), p.hasKey k = false → p.get k = .undefined := by
    intro p k hp
    unfold Params.hasKey at hp
    unfold Params.get
    have : lookupLast p k = none := by
      induction p with
      | nil => rfl
      | cons kv rest ih =>
        obtain ⟨k1, v1⟩ := kv
        simp only [List.any_cons, Bool.or_eq_false_iff, beq_eq_false_iff_ne] at hp
        simp [lookupLast, ih hp.2, hp.1]
    simp [this]
  have h1 : (intervalParamsOf gp).hasKey "startTime" = false := by
    unfold intervalParamsOf
    rw [Params.hasKey_delete_ne _ _ _ (by decide), Params.hasKey_delete_same]
  have h2 : (intervalParamsOf gp).hasKey "endTime" = false := by
    unfold intervalParamsOf
    rw [Params.hasKey_delete_same]
  refine ⟨h1, h2, hkey _ _ h1, hkey _ _ h2, ?_⟩
  intro k hs he
  unfold intervalParamsOf
  rw [hassign]
  exact ⟨by rw [Params.get_delete_ne _ _ _ he, Params.get_delete_ne _ _ _ hs],
    by rw [Params.hasKey_delete_ne _ _ _ he, Params.hasKey_delete_ne _ _ _ hs]⟩

/-- The requests and plain actions of `handleGraphParams`, in full: it never
throws, dispatches `RECEIVED_GRAPH_PARAMS` first, then runs the wait/trip
fetcher exactly when the stored date is present, then the combined fetch or
the two resets. -/
theorem handleGraphParams_log (env : Env) (reducer : State → Action → State)
    (params : Params) (w : World) :
    (handleGraphParams env reducer params w).2 = none
    ∧ ∃ pre : List Request, ∃ thunkPart : List Effect,
      (handleGraphParams env reducer params w).1.log =
        w.log ++ [Effect.dispatch (receivedGraphParams params)] ++ thunkPart
          ++ pre.map Effect.request
          ++ (fetchOrReset env reducer
                (reducer w.state (receivedGraphParams params)).routes.graphParams
                { state := reducer w.state (receivedGraphParams params), log := [] }).1.log
      ∧ (∀ q ∈ pre, (q.isTripTimes = true ∨ q.isWaitTimes = true)
            ∧ q.url ≠ "/api/metrics" ∧ q.url ≠ "/api/metrics_by_interval")
      ∧ (truthy ((reducer w.state (receivedGraphParams params)).routes.graphParams.get "date")
            = false → pre = [] ∧ thunkPart = [])
      ∧ (truthy ((reducer w.state (receivedGraphParams params)).routes.graphParams.get "date")
            = true →
          thunkPart = [Effect.thunk "fetchPrecomputedWaitAndTripData"
            [(reducer w.state (receivedGraphParams params)).routes.graphParams.toJS]]) := by
  generalize hgp : (reducer w.state (receivedGraphParams params)).routes.graphParams = gp
  by_cases hd : truthy (gp.get "date") = true
  · obtain ⟨D, hD, -⟩ := Params.str_of_truthy gp "date" hd
    rw [handleGraphParams_date env reducer params w D (by rw [hgp]; exact hd) (by rw [hgp]; exact hD),
      hgp, fetchOrReset_eq, fetchOrReset_eq]
    refine ⟨by split <;> rfl, precomputedRequests env gp D (reducer w.state (receivedGraphParams params)),
      [Effect.thunk "fetchPrecomputedWaitAndTripData" [gp.toJS]], ?_,
      fun q hq => precomputedRequests_spec env gp D _ q hq, ?_, fun _ => rfl⟩
    · split <;> simp
    · intro hf
      rw [hf] at hd
      exact absurd hd (by decide)
  · have hf : truthy (gp.get "date") = false := by simpa using hd
    rw [handleGraphParams_no_date env reducer params w (by rw [hgp]; exact hf), hgp,
      fetchOrReset_eq, fetchOrReset_eq]
    refine ⟨by split <;> rfl, [], [], ?_, by simp, fun _ => ⟨rfl, rfl⟩, ?_⟩
    · split <;> simp [dispatch]
    · intro ht
      rw [ht] at hf
      exact absurd hf (by decide)

theorem allProvided_eq_true (gp : Params)
    (h : ∀ k ∈ ["routeId", "directionId", "startStopId", "endStopId"], truthy (gp.get k) = true) :
    allProvided gp = true := by
  simp only [List.mem_cons, List.mem_singleton, forall_eq_or_imp, forall_eq] at h
  simp [allProvided, h.1, h.2.1, h.2.2.1, h.2.2.2]

theorem allProvided_eq_false (gp : Params)
    (h : ∃ k ∈ ["routeId", "directionId", "startStopId", "endStopId"], truthy (gp.get k) = false) :
    allProvided gp = false := by
  obtain ⟨k, hk, hf⟩ := h
  simp only [List.mem_cons, List.mem_singleton] at hk
  unfold allProvided
  rcases hk with rfl | rfl | rfl | rfl | hk
  · simp [hf]
  · simp [hf]
  · simp [hf]
  · simp [hf]
  · simp at hk

/-! ## The claims about `handleGraphParams` -/

/-- C1 (amended): whenever the stored graphParams miss at least one of routeId,
directionId, startStopId and endStopId, `handleGraphParams` does not throw,
dispatches exactly `RECEIVED_GRAPH_PARAMS`, `RESET_GRAPH_DATA` (payload null)
and `RESET_INTERVAL_DATA` (payload null), and issues no request to
`/api/metrics` or `/api/metrics_by_interval`: every request it issues is a
trip-times or wait-times request of the wait/trip fetcher, and there is none
when the date is missing as well. -/
theorem C1_missing_params_reset (env : Env) (reducer : State → Action → State)
    (params : Params) (w : World) (gp : Params)
    (hgp : (reducer w.state (receivedGraphParams params)).routes.graphParams = gp)
    (hmissing : ∃ k ∈ ["routeId", "directionId", "startStopId", "endStopId"],
      truthy (gp.get k) = false) :
    (handleGraphParams env reducer params w).2 = none
    ∧ actionsOf (handleGraphParams env reducer params w).1.log =
        actionsOf w.log ++
          [{ type := "RECEIVED_GRAPH_PARAMS", payload := params.toJS, graphParams := none },
           { type := "RESET_GRAPH_DATA", payload := .null, graphParams := none },
           { type := "RESET_INTERVAL_DATA", payload := .null, graphParams := none }]
    ∧ ∃ reqs : List Request,
        requestsOf (handleGraphParams env reducer params w).1.log = requestsOf w.log ++ reqs
        ∧ (∀ q ∈ reqs, (q.isTripTimes = true ∨ q.isWaitTimes = true)
            ∧ q.url ≠ "/api/metrics" ∧ q.url ≠ "/api/metrics_by_interval")
        ∧ (truthy (gp.get "date") = false → reqs = []) := by
  obtain ⟨hnone, pre, thunkPart, hlog, hpre, hfalse, htrue⟩ :=
    handleGraphParams_log env reducer params w
  rw [hgp] at hlog hfalse htrue
  have hall := allProvided_eq_false gp hmissing
  rw [fetchOrReset_eq] at hlog
  simp only [hall, Bool.false_eq_true, if_false, List.nil_append] at hlog
  have hthunk : actionsOf thunkPart = [] ∧ requestsOf thunkPart = [] := by
    by_cases hd : truthy (gp.get "date") = true
    · rw [htrue hd]
      exact ⟨rfl, rfl⟩
    · have hf : truthy (gp.get "date") = false := by simpa using hd
      rw [(hfalse hf).2]
      exact ⟨rfl, rfl⟩
  refine ⟨hnone, ?_, pre, ?_, hpre, fun hf => (hfalse hf).1⟩
  · rw [hlog]
    simp [actionsOf_append, actionsOf_map_request, hthunk.1, actionsOf, receivedGraphParams,
      resetGraphAction, resetIntervalAction]
  · rw [hlog]
    simp [requestsOf_append, requestsOf_map_request, hthunk.2, requestsOf]

/-- C2: whenever routeId, directionId, startStopId and endStopId are all
present in the stored graphParams, `handleGraphParams` does not throw,
dispatches no event besides `RECEIVED_GRAPH_PARAMS` (so no reset), and issues
exactly one `/api/metrics` request, with the graphParams unchanged as params,
and exactly one `/api/metrics_by_interval` request, whose params have neither
a `startTime` nor an `endTime` key and agree with graphParams on every other
key; the requests issued before these two are not metrics requests. -/
theorem C2_all_params_fetch (env : Env) (reducer : State → Action → State)
    (params : Params) (w : World) (gp : Params)
    (hgp : (reducer w.state (receivedGraphParams params)).routes.graphParams = gp)
    (hall : ∀ k ∈ ["routeId", "directionId", "startStopId", "endStopId"],
      truthy (gp.get k) = true) :
    (handleGraphParams env reducer params w).2 = none
    ∧ actionsOf (handleGraphParams env reducer params w).1.log =
        actionsOf w.log ++
          [{ type := "RECEIVED_GRAPH_PARAMS", payload := params.toJS, graphParams := none }]
    ∧ (∃ pre : List Request,
        requestsOf (handleGraphParams env reducer params w).1.log =
          requestsOf w.log ++ pre ++
            [{ url := "/api/metrics",
               config := some { params := gp, baseURL := env.metricsBaseURL },
               handler := .graphData gp },
             { url := "/api/metrics_by_interval",
               config := some { params := intervalParamsOf gp, baseURL := env.metricsBaseURL },
               handler := .intervalData (intervalParamsOf gp) }]
        ∧ ∀ q ∈ pre, q.url ≠ "/api/metrics" ∧ q.url ≠ "/api/metrics_by_interval")
    ∧ (intervalParamsOf gp).hasKey "startTime" = false
    ∧ (intervalParamsOf gp).hasKey "endTime" = false
    ∧ ∀ k : String, k ≠ "startTime" → k ≠ "endTime" →
        (intervalParamsOf gp).get k = gp.get k ∧ (intervalParamsOf gp).hasKey k = gp.hasKey k := by
  obtain ⟨hnone, pre, thunkPart, hlog, hpre, hfalse, htrue⟩ :=
    handleGraphParams_log env reducer params w
  rw [hgp] at hlog hfalse htrue
  have hprov := allProvided_eq_true gp hall
  rw [fetchOrReset_eq] at hlog
  simp only [hprov, if_true, List.nil_append] at hlog
  have hthunk : actionsOf thunkPart = [] ∧ requestsOf thunkPart = [] := by
    by_cases hd : truthy (gp.get "date") = true
    · rw [htrue hd]
      exact ⟨rfl, rfl⟩
    · have hf : truthy (gp.get "date") = false := by simpa using hd
      rw [(hfalse hf).2]
      exact ⟨rfl, rfl⟩
  obtain ⟨hs, he, -, -, hrest⟩ := intervalParamsOf_spec gp
  refine ⟨hnone, ?_, ⟨pre, ?_, fun q hq => (hpre q hq).2⟩, hs, he, hrest⟩
  · rw [hlog]
    simp [actionsOf_append, actionsOf_map_request, hthunk.1, actionsOf, receivedGraphParams]
  · rw [hlog]
    simp [requestsOf_append, requestsOf_map_request, hthunk.2, requestsOf, graphRequest,
      intervalRequest]

/-- C9: `handleGraphParams` never throws; the first thing it does is dispatch
`RECEIVED_GRAPH_PARAMS` with payload equal to params; after that it dispatches
the wait/trip fetcher if and only if the stored graphParams have a date,
whichever of the combined fetch and the resets follows; and when it does, the
date is a non-empty string and the fetcher runs on the stored graphParams
right after the first dispatch, before anything else. -/
theorem C9_params_first_then_date_gate (env : Env) (reducer : State → Action → State)
    (params : Params) (w : World) (gp : Params)
    (hgp : (reducer w.state (receivedGraphParams params)).routes.graphParams = gp) :
    (handleGraphParams env reducer params w).2 = none
    ∧ ∃ rest : List Effect,
        (handleGraphParams env reducer params w).1.log =
          w.log ++ Effect.dispatch
            { type := "RECEIVED_GRAPH_PARAMS", payload := params.toJS, graphParams := none }
            :: rest
        ∧ ("fetchPrecomputedWaitAndTripData" ∈ thunksOf rest ↔ truthy (gp.get "date") = true)
        ∧ (truthy (gp.get "date") = true →
            (∃ D : String, gp.get "date" = .str D ∧ D ≠ "")
            ∧ ∃ tail : List Effect,
                (handleGraphParams env reducer params w).1.log =
                  (fetchPrecomputedWaitAndTripData env gp
                    { state := reducer w.state (receivedGraphParams params),
                      log := w.log ++
                        [Effect.dispatch (receivedGraphParams params),
                         Effect.thunk "fetchPrecomputedWaitAndTripData" [gp.toJS]] }).1.log
                  ++ tail
                ∧ (fetchPrecomputedWaitAndTripData env gp
                    { state := reducer w.state (receivedGraphParams params),
                      log := w.log ++
                        [Effect.dispatch (receivedGraphParams params),
                         Effect.thunk "fetchPrecomputedWaitAndTripData" [gp.toJS]] }).2 = none) := by
  obtain ⟨hnone, pre, thunkPart, hlog, hpre, hfalse, htrue⟩ :=
    handleGraphParams_log env reducer params w
  rw [hgp] at hlog hfalse htrue
  refine ⟨hnone, thunkPart ++ pre.map Effect.request ++ (fetchOrReset env reducer gp
      { state := reducer w.state (receivedGraphParams params), log := [] }).1.log, ?_, ?_, ?_⟩
  · rw [hlog]
    simp [receivedGraphParams]
  · have htail : "fetchPrecomputedWaitAndTripData" ∉ thunksOf (fetchOrReset env reducer gp
        { state := reducer w.state (receivedGraphParams params), log := [] }).1.log := by
      rw [fetchOrReset_eq]
      split <;> simp [thunksOf]
    by_cases hd : truthy (gp.get "date") = true
    · rw [htrue hd]
      simp [thunksOf_append, thunksOf, hd]
    · have hf : truthy (gp.get "date") = false := by simpa using hd
      rw [(hfalse hf).2, (hfalse hf).1]
      simp only [List.nil_append, List.map_nil, hf, Bool.false_eq_true, iff_false]
      exact htail
  · intro hd
    obtain ⟨D, hD, hDne⟩ := Params.str_of_truthy gp "date" hd
    refine ⟨⟨D, hD, hDne⟩, ?_⟩
    rw [fetchPrecomputed_of_date env gp _ D hD]
    refine ⟨(fetchOrReset env reducer gp
      { state := reducer w.state (receivedGraphParams params), log := [] }).1.log, ?_, rfl⟩
    rw [handleGraphParams_date env reducer params w D (by rw [hgp]; exact hd)
      (by rw [hgp]; exact hD), hgp, fetchOrReset_eq, fetchOrReset_eq]
    split <;> simp

theorem Obj.get_of_lookupLast_none (o : Obj) (k : String) (h : lookupLast o k = none) :
    truthy (Obj.get o k) = false := by
  simp [Obj.get, h, truthy]

/-! ## The claims about the wait/trip fetcher -/

/-- C4: for params whose date is `YYYY-MM-DD` and a state whose two caches both
lack the cache key, `fetchPrecomputedWaitAndTripData` does not throw and
issues exactly two requests and nothing else: the trip-times request to
`.../trip-times/v1/sf-muni/YYYY/MM/DD/trip-times_v1_sf-muni_<date>_<statPath><timePath>.json.gz`
and then the wait-times request to the same address with `wait-times` in both
places, where statPath is `getStatPath('median')` and timePath is
`getTimePath` of the time-range string.  For the params with only the date
`2023-05-01` and empty caches, with `getStatPath('median') = 'median'` and
`getTimePath('') = ''`, the two addresses are the ones written out below. -/
theorem C4_cache_miss_two_requests (env : Env) (params : Params) (w : World) (y m d : String)
    (hy : y.length = 4 ∧ isDigits y = true) (hm : m.length = 2 ∧ isDigits m = true)
    (hd : d.length = 2 ∧ isDigits d = true)
    (hdate : params.get "date" = .str (y ++ "-" ++ m ++ "-" ++ d))
    (htrip : lookupLast w.state.routes.tripTimesCache (cacheKey params) = none)
    (hwait : lookupLast w.state.routes.waitTimesCache (cacheKey params) = none) :
    fetchPrecomputedWaitAndTripData env params w =
      ({ w with log := w.log ++
          [Effect.request
            { url := "https://opentransit-precomputed-stats.s3.amazonaws.com/trip-times/v1/sf-muni/"
                ++ y ++ "/" ++ m ++ "/" ++ d ++ "/trip-times_v1_sf-muni_"
                ++ (y ++ "-" ++ m ++ "-" ++ d) ++ "_" ++ env.getStatPath "median"
                ++ env.getTimePath (timeStrOf params) ++ ".json.gz",
              config := none,
              handler := .tripTimes (.str (y ++ "-" ++ m ++ "-" ++ d)) (timeStrOf params) },
           Effect.request
            { url := "https://opentransit-precomputed-stats.s3.amazonaws.com/wait-times/v1/sf-muni/"
                ++ y ++ "/" ++ m ++ "/" ++ d ++ "/wait-times_v1_sf-muni_"
                ++ (y ++ "-" ++ m ++ "-" ++ d) ++ "_" ++ env.getStatPath "median"
                ++ env.getTimePath (timeStrOf params) ++ ".json.gz",
              config := none,
              handler := .waitTimes (.str (y ++ "-" ++ m ++ "-" ++ d)) (timeStrOf params) }] },
        none)
    ∧ ∀ env2 : Env, env2.getStatPath "median" = "median" → env2.getTimePath "" = "" →
        (requestsOf (fetchPrecomputedWaitAndTripData env2 [("date", QVal.str "2023-05-01")]
            emptyWorld).1.log).map Request.url =
          ["https://opentransit-precomputed-stats.s3.amazonaws.com/trip-times/v1/sf-muni/2023/05/01/trip-times_v1_sf-muni_2023-05-01_median.json.gz",
           "https://opentransit-precomputed-stats.s3.amazonaws.com/wait-times/v1/sf-muni/2023/05/01/wait-times_v1_sf-muni_2023-05-01_median.json.gz"] := by
  constructor
  · rw [fetchPrecomputed_of_date env params w _ hdate]
    have h1 := Obj.get_of_lookupLast_none _ _ htrip
    have h2 := Obj.get_of_lookupLast_none _ _ hwait
    simp only [precomputedRequests, h1, h2, Bool.false_eq_true, if_false, List.nil_append,
      List.map_cons, List.map_nil, List.singleton_append, tripTimesRequest, waitTimesRequest,
      precomputedUrl, dashesToSlashes_date y m d hy.2 hm.2 hd.2, toStr]
    have e1 : ("https://opentransit-precomputed-stats.s3.amazonaws.com/" ++ "trip-times"
        ++ "/v1/sf-muni/" : String)
        = "https://opentransit-precomputed-stats.s3.amazonaws.com/trip-times/v1/sf-muni/" := by
      decide
    have e2 : ("https://opentransit-precomputed-stats.s3.amazonaws.com/" ++ "wait-times"
        ++ "/v1/sf-muni/" : String)
        = "https://opentransit-precomputed-stats.s3.amazonaws.com/wait-times/v1/sf-muni/" := by
      decide
    have e3 : ("/" ++ "trip-times" ++ "_v1_sf-muni_" : String) = "/trip-times_v1_sf-muni_" := by
      decide
    have e4 : ("/" ++ "wait-times" ++ "_v1_sf-muni_" : String) = "/wait-times_v1_sf-muni_" := by
      decide
    rw [← e1, ← e2, ← e3, ← e4]
    simp only [String.append_assoc]
  · intro env2 h1 h2
    have hdate2 : Params.get [("date", QVal.str "2023-05-01")] "date" = .str "2023-05-01" := rfl
    rw [fetchPrecomputed_of_date env2 _ emptyWorld _ hdate2]
    have ht : timeStrOf [("date", QVal.str "2023-05-01")] = "" := rfl
    simp only [precomputedRequests, tripTimesRequest, waitTimesRequest, ht, h1, h2]
    decide

/-- C5 (amended): for params with a date, a kind whose cache holds a truthy
payload under the key date + time-range string + `median` is not requested
(a falsy stored payload, such as `null`, does not count as populated); the
key carried as second component of a `RECEIVED_PRECOMPUTED_TRIP_TIMES` or
`RECEIVED_PRECOMPUTED_WAIT_TIMES` payload is exactly that lookup key; hence
once a truthy payload has been stored under the carried key, repeating the
call with the same params does not request that kind again. -/
theorem C5_truthy_cache_entry_not_refetched (env : Env) (params : Params) (w : World)
    (D : String) (hdate : params.get "date" = .str D) :
    ∃ reqs : List Request,
      fetchPrecomputedWaitAndTripData env params w =
        ({ w with log := w.log ++ reqs.map Effect.request }, none)
      ∧ (truthy (Obj.get w.state.routes.tripTimesCache
            (toStr (params.get "date") ++ timeStrOf params ++ "median")) = true →
          ∀ q ∈ reqs, q.isTripTimes = false)
      ∧ (truthy (Obj.get w.state.routes.waitTimesCache
            (toStr (params.get "date") ++ timeStrOf params ++ "median")) = true →
          ∀ q ∈ reqs, q.isWaitTimes = false)
      ∧ (∀ q ∈ reqs, ∀ response : Obj, q.isTripTimes = true →
          settle q.handler (.resolved response) =
            [{ type := "RECEIVED_PRECOMPUTED_TRIP_TIMES",
               payload := .arr [Obj.get response "data",
                 .str (toStr (params.get "date") ++ timeStrOf params ++ "median")],
               graphParams := none }])
      ∧ (∀ q ∈ reqs, ∀ response : Obj, q.isWaitTimes = true →
          settle q.handler (.resolved response) =
            [{ type := "RECEIVED_PRECOMPUTED_WAIT_TIMES",
               payload := .arr [Obj.get response "data",
                 .str (toStr (params.get "date") ++ timeStrOf params ++ "median")],
               graphParams := none }])
      ∧ (∀ (w2 : World) (data : JSVal), truthy data = true →
          w2.state.routes.tripTimesCache =
            Obj.set w.state.routes.tripTimesCache
              (toStr (params.get "date") ++ timeStrOf params ++ "median") data →
          ∃ reqs2 : List Request,
            fetchPrecomputedWaitAndTripData env params w2 =
              ({ w2 with log := w2.log ++ reqs2.map Effect.request }, none)
            ∧ ∀ q ∈ reqs2, q.isTripTimes = false)
      ∧ (∀ (w2 : World) (data : JSVal), truthy data = true →
          w2.state.routes.waitTimesCache =
            Obj.set w.state.routes.waitTimesCache
              (toStr (params.get "date") ++ timeStrOf params ++ "median") data →
          ∃ reqs2 : List Request,
            fetchPrecomputedWaitAndTripData env params w2 =
              ({ w2 with log := w2.log ++ reqs2.map Effect.request }, none)
            ∧ ∀ q ∈ reqs2, q.isWaitTimes = false) := by
  have key : ∀ (s : State),
      (truthy (Obj.get s.routes.tripTimesCache (cacheKey params)) = true →
        ∀ q ∈ precomputedRequests env params D s, q.isTripTimes = false)
      ∧ (truthy (Obj.get s.routes.waitTimesCache (cacheKey params)) = true →
        ∀ q ∈ precomputedRequests env params D s, q.isWaitTimes = false) := by
    intro s
    constructor
    · intro h q hq
      unfold precomputedRequests at hq
      rw [h] at hq
      simp only [if_true, List.nil_append] at hq
      split at hq
      · simp at hq
      · simp only [List.mem_singleton] at hq
        subst hq
        rfl
    · intro h q hq
      unfold precomputedRequests at hq
      rw [h] at hq
      simp only [if_true, List.append_nil] at hq
      split at hq
      · simp at hq
      · simp only [List.mem_singleton] at hq
        subst hq
        rfl
  have carried : ∀ q ∈ precomputedRequests env params D w.state,
      (q = tripTimesRequest env params D ∨ q = waitTimesRequest env params D) := by
    intro q hq
    unfold precomputedRequests at hq
    rcases List.mem_append.mp hq with h | h
    · split at h
      · simp at h
      · exact Or.inl (List.mem_singleton.mp h)
    · split at h
      · simp at h
      · exact Or.inr (List.mem_singleton.mp h)
  have hk : toStr (params.get "date") ++ timeStrOf params ++ "median" = cacheKey params := rfl
  rw [hk]
  refine ⟨precomputedRequests env params D w.state, fetchPrecomputed_of_date env params w D hdate,
    (key w.state).1, (key w.state).2, ?_, ?_, ?_, ?_⟩
  · intro q hq response hkind
    rcases carried q hq with rfl | rfl
    · simp [tripTimesRequest, settle, settleWith, cacheKey, hdate]
    · simp [waitTimesRequest, Request.isTripTimes] at hkind
  · intro q hq response hkind
    rcases carried q hq with rfl | rfl
    · simp [tripTimesRequest, Request.isWaitTimes] at hkind
    · simp [waitTimesRequest, settle, settleWith, cacheKey, hdate]
  · intro w2 data hdata hcache
    refine ⟨precomputedRequests env params D w2.state,
      fetchPrecomputed_of_date env params w2 D hdate, (key w2.state).1 ?_⟩
    rw [hcache, Obj.get_set_same]
    exact hdata
  · intro w2 data hdata hcache
    refine ⟨precomputedRequests env params D w2.state,
      fetchPrecomputed_of_date env params w2 D hdate, (key w2.state).2 ?_⟩
    rw [hcache, Obj.get_set_same]
    exact hdata

/-- C8: a failed trip-times, wait-times or arrivals request dispatches no
event and leaves the world (store and caches) as it was; for params with a
date, each of the trip-times and wait-times requests is issued exactly when
its own cache entry is falsy, whatever happens to the other; after the
failure of one, the success of the other still dispatches its event; and a
later call with the same params, after a failure was delivered, issues the
same requests again. -/
theorem C8_failures_silent_and_retried (env : Env) (reducer : State → Action → State)
    (params : Params) (w : World) (D : String) (e response : Obj)
    (hdate : params.get "date" = .str D) :
    (∀ (ds : JSVal) (ts : String) (w1 : World),
        settle (.tripTimes ds ts) (.rejected e) = []
        ∧ deliver reducer (.tripTimes ds ts) (.rejected e) w1 = w1)
    ∧ (∀ (ds : JSVal) (ts : String) (w1 : World),
        settle (.waitTimes ds ts) (.rejected e) = []
        ∧ deliver reducer (.waitTimes ds ts) (.rejected e) w1 = w1)
    ∧ (∀ (ds r : JSVal) (w1 : World),
        settle (.arrivals ds r) (.rejected e) = []
        ∧ deliver reducer (.arrivals ds r) (.rejected e) w1 = w1)
    ∧ fetchPrecomputedWaitAndTripData env params w =
        ({ w with log := w.log ++
            ((if truthy (Obj.get w.state.routes.tripTimesCache (cacheKey params)) then []
                else [tripTimesRequest env params D])
              ++ (if truthy (Obj.get w.state.routes.waitTimesCache (cacheKey params)) then []
                else [waitTimesRequest env params D])).map Effect.request }, none)
    ∧ (∀ w1 : World,
        deliver reducer (waitTimesRequest env params D).handler (.resolved response)
            (deliver reducer (tripTimesRequest env params D).handler (.rejected e) w1)
          = dispatch reducer
              { type := "RECEIVED_PRECOMPUTED_WAIT_TIMES",
                payload := .arr [Obj.get response "data", .str (cacheKey params)],
                graphParams := none } w1)
    ∧ (∀ w1 : World,
        deliver reducer (tripTimesRequest env params D).handler (.resolved response)
            (deliver reducer (waitTimesRequest env params D).handler (.rejected e) w1)
          = dispatch reducer
              { type := "RECEIVED_PRECOMPUTED_TRIP_TIMES",
                payload := .arr [Obj.get response "data", .str (cacheKey params)],
                graphParams := none } w1)
    ∧ (∀ h : Handler,
        h = (tripTimesRequest env params D).handler ∨ h = (waitTimesRequest env params D).handler →
        fetchPrecomputedWaitAndTripData env params
            (deliver reducer h (.rejected e) (fetchPrecomputedWaitAndTripData env params w).1) =
          ({ (deliver reducer h (.rejected e) (fetchPrecomputedWaitAndTripData env params w).1) with
              log := (deliver reducer h (.rejected e)
                  (fetchPrecomputedWaitAndTripData env params w).1).log ++
                ((if truthy (Obj.get w.state.routes.tripTimesCache (cacheKey params)) then []
                    else [tripTimesRequest env params D])
                  ++ (if truthy (Obj.get w.state.routes.waitTimesCache (cacheKey params)) then []
                    else [waitTimesRequest env params D])).map Effect.request }, none)) := by
  refine ⟨fun ds ts w1 => ⟨rfl, rfl⟩, fun ds ts w1 => ⟨rfl, rfl⟩, fun ds r w1 => ⟨rfl, rfl⟩,
    fetchPrecomputed_of_date env params w D hdate, ?_, ?_, ?_⟩
  · intro w1
    simp [deliver, settle, settleWith, waitTimesRequest, tripTimesRequest, cacheKey, hdate]
  · intro w1
    simp [deliver, settle, settleWith, waitTimesRequest, tripTimesRequest, cacheKey, hdate]
  · intro h hh
    have hd : deliver reducer h (.rejected e) (fetchPrecomputedWaitAndTripData env params w).1
        = (fetchPrecomputedWaitAndTripData env params w).1 := by
      rcases hh with rfl | rfl <;> rfl
    rw [hd, fetchPrecomputed_of_date env params _ D hdate, fetchPrecomputed_of_date env params w D hdate]
    rfl

/-! ## The claims about the promise chains -/

theorem errStr_of_body_error (err resp : Obj) (X : String) (hX : X ≠ "")
    (hresp : Obj.get err "response" = .obj resp)
    (hdata : Obj.get resp "data" = .obj [("error", .str X)]) :
    errStr err = .ok (.str X) := by
  have hget : Obj.get [("error", JSVal.str X)] "error" = .str X := rfl
  simp [errStr, hresp, truthy, getProp, hdata, hget, hX]

theorem errStr_of_no_response (err : Obj) (hresp : Obj.get err "response" = .undefined) :
    errStr err = .ok (Obj.get err "message") := by
  simp [errStr, hresp, truthy]

/-- The error expression of the metrics handlers never throws. -/
theorem errStr_ok (err : Obj) : ∃ v : JSVal, errStr err = .ok v := by
  unfold errStr
  cases hr : Obj.get err "response" <;> simp [truthy, getProp]
  case obj fields =>
    cases hd : Obj.get fields "data" <;> simp [truthy, getProp]
    case obj fs => split <;> simp

/-- C3 (amended): for `fetchGraphData` and `fetchIntervalData` and every
non-empty string X, a failure whose error response has the body `{error: X}`
dispatches the error event (`RECEIVED_GRAPH_ERROR`, resp.
`RECEIVED_INTERVAL_ERROR`) with payload exactly X; and a failure with no
response dispatches it with payload exactly the message of the transport
error. -/
theorem C3_error_payload (params : Params) (err : Obj) :
    (∀ (X : String) (resp : Obj), X ≠ "" →
        Obj.get err "response" = .obj resp →
        Obj.get resp "data" = .obj [("error", .str X)] →
        settle (.graphData params) (.rejected err) =
            [{ type := "RECEIVED_GRAPH_ERROR", payload := .str X, graphParams := none }]
        ∧ settle (.intervalData params) (.rejected err) =
            [{ type := "RECEIVED_INTERVAL_ERROR", payload := .str X, graphParams := none }])
    ∧ (Obj.get err "response" = .undefined →
        settle (.graphData params) (.rejected err) =
            [{ type := "RECEIVED_GRAPH_ERROR", payload := Obj.get err "message",
               graphParams := none }]
        ∧ settle (.intervalData params) (.rejected err) =
            [{ type := "RECEIVED_INTERVAL_ERROR", payload := Obj.get err "message",
               graphParams := none }]) := by
  constructor
  · intro X resp hX hresp hdata
    simp [settle, settleWith, errStr_of_body_error err resp X hX hresp hdata]
  · intro hresp
    simp [settle, settleWith, errStr_of_no_response err hresp]

/-- C6 (amended): each of `fetchGraphData`, `fetchIntervalData` and
`fetchRoutes` issues a single request.  On failure exactly one event is
dispatched: `RECEIVED_GRAPH_ERROR`, `RECEIVED_INTERVAL_ERROR`, resp.
`RECEIVED_ROUTES_ERROR` carrying the raw error.  On success, provided the
dispatch of the success event does not throw, exactly one event is
dispatched: `RECEIVED_GRAPH_DATA`, resp. `RECEIVED_INTERVAL_DATA`, with payload
the response body and graphParams the params of the call, and, when the
response body is neither `null` nor `undefined`, `RECEIVED_ROUTES` with payload
the `routes` field of the body.  On a store whose dispatch never throws, every
outcome dispatches exactly one event. -/
theorem C6_one_terminal_event (env : Env) (params : Params) (w : World) (o : Outcome)
    (throws : Action → Option JSVal) :
    (fetchGraphData env params w =
        ({ w with log := w.log ++ [Effect.request
            { url := "/api/metrics",
              config := some { params := params, baseURL := env.metricsBaseURL },
              handler := .graphData params }] }, none)
      ∧ fetchIntervalData env params w =
        ({ w with log := w.log ++ [Effect.request
            { url := "/api/metrics_by_interval",
              config := some { params := params, baseURL := env.metricsBaseURL },
              handler := .intervalData params }] }, none)
      ∧ fetchRoutes w =
        ({ w with log := w.log ++ [Effect.request
            { url := routesUrl, config := none, handler := .routes }] }, none))
    ∧ ((∀ a : Action, throws a = none) →
        (settleWith throws (.graphData params) o).length = 1
        ∧ (settleWith throws (.intervalData params) o).length = 1
        ∧ (settleWith throws .routes o).length = 1)
    ∧ (∀ response : Obj,
        (throws { type := "RECEIVED_GRAPH_DATA", payload := Obj.get response "data",
                  graphParams := some params } = none →
          settleWith throws (.graphData params) (.resolved response) =
            [{ type := "RECEIVED_GRAPH_DATA", payload := Obj.get response "data",
               graphParams := some params }])
        ∧ (throws { type := "RECEIVED_INTERVAL_DATA", payload := Obj.get response "data",
                    graphParams := some params } = none →
          settleWith throws (.intervalData params) (.resolved response) =
            [{ type := "RECEIVED_INTERVAL_DATA", payload := Obj.get response "data",
               graphParams := some params }])
        ∧ (Obj.get response "data" ≠ .null → Obj.get response "data" ≠ .undefined →
            ∃ routes : JSVal, getProp (Obj.get response "data") "routes" = .ok routes
              ∧ (throws { type := "RECEIVED_ROUTES", payload := routes, graphParams := none }
                    = none →
                  settleWith throws .routes (.resolved response) =
                    [{ type := "RECEIVED_ROUTES", payload := routes, graphParams := none }])))
    ∧ (∀ err : Obj,
        (∃ p : JSVal, settleWith throws (.graphData params) (.rejected err) =
            [{ type := "RECEIVED_GRAPH_ERROR", payload := p, graphParams := none }])
        ∧ (∃ p : JSVal, settleWith throws (.intervalData params) (.rejected err) =
            [{ type := "RECEIVED_INTERVAL_ERROR", payload := p, graphParams := none }])
        ∧ settleWith throws .routes (.rejected err) =
            [{ type := "RECEIVED_ROUTES_ERROR", payload := .obj err, graphParams := none }]) := by
  have hrej : ∀ err : Obj,
      (∃ p : JSVal, settleWith throws (.graphData params) (.rejected err) =
          [{ type := "RECEIVED_GRAPH_ERROR", payload := p, graphParams := none }])
      ∧ (∃ p : JSVal, settleWith throws (.intervalData params) (.rejected err) =
          [{ type := "RECEIVED_INTERVAL_ERROR", payload := p, graphParams := none }])
      ∧ settleWith throws .routes (.rejected err) =
          [{ type := "RECEIVED_ROUTES_ERROR", payload := .obj err, graphParams := none }] := by
    intro err
    obtain ⟨v, hv⟩ := errStr_ok err
    exact ⟨⟨v, by simp [settleWith, hv]⟩, ⟨v, by simp [settleWith, hv]⟩, rfl⟩
  refine ⟨⟨rfl, rfl, rfl⟩, ?_, ?_, hrej⟩
  · intro hno
    cases o with
    | resolved response =>
      refine ⟨by simp [settleWith, hno], by simp [settleWith, hno], ?_⟩
      simp only [settleWith]
      split
      · simp [hno]
      · rfl
    | rejected err =>
      obtain ⟨⟨p, hp⟩, ⟨q, hq⟩, hr⟩ := hrej err
      rw [hp, hq, hr]
      exact ⟨rfl, rfl, rfl⟩
  · intro response
    refine ⟨fun h => by simp [settleWith, h], fun h => by simp [settleWith, h], ?_⟩
    intro hnull hundef
    cases hd : Obj.get response "data" with
    | undefined => exact absurd hd hundef
    | null => exact absurd hd hnull
    | bool b => exact ⟨.undefined, rfl, fun h => by simp [settleWith, hd, getProp, h]⟩
    | num n => exact ⟨.undefined, rfl, fun h => by simp [settleWith, hd, getProp, h]⟩
    | str s => exact ⟨.undefined, rfl, fun h => by simp [settleWith, hd, getProp, h]⟩
    | arr items => exact ⟨.undefined, rfl, fun h => by simp [settleWith, hd, getProp, h]⟩
    | obj fields =>
      exact ⟨Obj.get fields "routes", rfl, fun h => by simp [settleWith, hd, getProp, h]⟩

/-! ## The cache key -/

theorem split_at_dash (a b a2 b2 : List Char) (ha : '-' ∉ a) (ha2 : '-' ∉ a2)
    (h : a ++ '-' :: b = a2 ++ '-' :: b2) : a = a2 ∧ b = b2 := by
  induction a generalizing a2 with
  | nil =>
    cases a2 with
    | nil => simpa using h
    | cons c rest =>
      simp only [List.nil_append, List.cons_append, List.cons.injEq] at h
      exact absurd (h.1 ▸ List.mem_cons_self _ _) ha2
  | cons c rest ih =>
    cases a2 with
    | nil =>
      simp only [List.nil_append, List.cons_append, List.cons.injEq] at h
      exact absurd (h.1 ▸ List.mem_cons_self _ _) ha
    | cons c2 rest2 =>
      simp only [List.cons_append, List.cons.injEq] at h
      have hr := ih rest2 (fun hm => ha (List.mem_cons_of_mem _ hm))
        (fun hm => ha2 (List.mem_cons_of_mem _ hm)) h.2
      exact ⟨by rw [h.1, hr.1], hr.2⟩

theorem date_length (y m d : String) (hy : y.length = 4) (hm : m.length = 2) (hd : d.length = 2) :
    (y ++ "-" ++ m ++ "-" ++ d).data.length = 10 := by
  have h1 : y.data.length = 4 := hy
  have h2 : m.data.length = 2 := hm
  have h3 : d.data.length = 2 := hd
  simp [String.data_append, h1, h2, h3]

/-- The time-range string of params whose startTime is present. -/
theorem timeStrOf_present (p : Params) (s : String) (hs : p.get "startTime" = .str s)
    (hne : s ≠ "") : timeStrOf p = s ++ "-" ++ toStr (p.get "endTime") := by
  simp [timeStrOf, hs, truthy, hne, toStr]

/-- The time-range string of params whose startTime is missing. -/
theorem timeStrOf_missing (p : Params) (hs : truthy (p.get "startTime") = false) :
    timeStrOf p = "" := by
  simp [timeStrOf, hs]

/-- C10 (amended): for two params whose dates have the form `YYYY-MM-DD` and
whose startTime and endTime, when present, contain no dash, equal cache keys
imply equal dates and equal time-range strings; a query with a startTime
never shares a key with a query without one; and when startTime is present in
both, the startTimes are equal, the endTimes have the same text, and the
endTimes are equal whenever endTime is present in both as well. -/
theorem C10_cache_key_separates (p1 p2 : Params) (y1 m1 d1 y2 m2 d2 : String)
    (hy1 : y1.length = 4 ∧ isDigits y1 = true) (hm1 : m1.length = 2 ∧ isDigits m1 = true)
    (hd1 : d1.length = 2 ∧ isDigits d1 = true)
    (hy2 : y2.length = 4 ∧ isDigits y2 = true) (hm2 : m2.length = 2 ∧ isDigits m2 = true)
    (hd2 : d2.length = 2 ∧ isDigits d2 = true)
    (hdate1 : p1.get "date" = .str (y1 ++ "-" ++ m1 ++ "-" ++ d1))
    (hdate2 : p2.get "date" = .str (y2 ++ "-" ++ m2 ++ "-" ++ d2))
    (hs1 : ∀ s : String, p1.get "startTime" = .str s → '-' ∉ s.data)
    (_he1 : ∀ s : String, p1.get "endTime" = .str s → '-' ∉ s.data)
    (hs2 : ∀ s : String, p2.get "startTime" = .str s → '-' ∉ s.data)
    (_he2 : ∀ s : String, p2.get "endTime" = .str s → '-' ∉ s.data)
    (hkey : cacheKey p1 = cacheKey p2) :
    p1.get "date" = p2.get "date"
    ∧ timeStrOf p1 = timeStrOf p2
    ∧ truthy (p1.get "startTime") = truthy (p2.get "startTime")
    ∧ (truthy (p1.get "startTime") = true → truthy (p2.get "startTime") = true →
        p1.get "startTime" = p2.get "startTime"
        ∧ toStr (p1.get "endTime") = toStr (p2.get "endTime")
        ∧ (truthy (p1.get "endTime") = true → truthy (p2.get "endTime") = true →
            p1.get "endTime" = p2.get "endTime")) := by
  have hl1 := date_length y1 m1 d1 hy1.1 hm1.1 hd1.1
  have hl2 := date_length y2 m2 d2 hy2.1 hm2.1 hd2.1
  generalize y1 ++ "-" ++ m1 ++ "-" ++ d1 = D1 at hdate1 hl1
  generalize y2 ++ "-" ++ m2 ++ "-" ++ d2 = D2 at hdate2 hl2
  have hk := congrArg String.data hkey
  simp only [cacheKey, hdate1, hdate2, toStr, String.data_append, List.append_assoc] at hk
  obtain ⟨hD, hrest⟩ := List.append_inj hk (by rw [hl1, hl2])
  have hT : (timeStrOf p1).data = (timeStrOf p2).data := (List.append_inj' hrest rfl).1
  have hTs : timeStrOf p1 = timeStrOf p2 := String.ext hT
  have hDs : D1 = D2 := String.ext hD
  have hpresent : ∀ (p q : Params), timeStrOf p = timeStrOf q →
      truthy (p.get "startTime") = true → truthy (q.get "startTime") = true := by
    intro p q hpq hp
    by_contra hq
    have hq2 : truthy (q.get "startTime") = false := by simpa using hq
    obtain ⟨s, hs, hne⟩ := Params.str_of_truthy p "startTime" hp
    rw [timeStrOf_present p s hs hne, timeStrOf_missing q hq2] at hpq
    have := congrArg String.data hpq
    simp [String.data_append] at this
  refine ⟨by rw [hdate1, hdate2, hDs], hTs, ?_, ?_⟩
  · cases h1 : truthy (p1.get "startTime") with
    | true => exact (hpresent p1 p2 hTs h1).symm
    | false =>
      cases h2 : truthy (p2.get "startTime") with
      | false => rfl
      | true =>
        have := hpresent p2 p1 hTs.symm h2
        rw [h1] at this
        exact this
  · intro h1 h2
    obtain ⟨s1, hs1eq, hne1⟩ := Params.str_of_truthy p1 "startTime" h1
    obtain ⟨s2, hs2eq, hne2⟩ := Params.str_of_truthy p2 "startTime" h2
    have hT2 := hT
    rw [timeStrOf_present p1 s1 hs1eq hne1, timeStrOf_present p2 s2 hs2eq hne2] at hT2
    simp only [String.data_append, List.append_assoc] at hT2
    have hsplit := split_at_dash s1.data (toStr (p1.get "endTime")).data s2.data
      (toStr (p2.get "endTime")).data (hs1 s1 hs1eq) (hs2 s2 hs2eq) hT2
    have hs : s1 = s2 := String.ext hsplit.1
    have he : toStr (p1.get "endTime") = toStr (p2.get "endTime") := String.ext hsplit.2
    refine ⟨by rw [hs1eq, hs2eq, hs], he, ?_⟩
    intro g1 g2
    obtain ⟨e1, he1eq, -⟩ := Params.str_of_truthy p1 "endTime" g1
    obtain ⟨e2, he2eq, -⟩ := Params.str_of_truthy p2 "endTime" g2
    rw [he1eq, he2eq] at he
    rw [he1eq, he2eq]
    simpa [toStr] using he

/-! ## Concrete evaluations -/

/-- C1 (as stated) fails: with only a date selected, routeId is missing from
the stored graphParams, the two resets are dispatched, and still two network
requests are issued, by the wait/trip fetcher. -/
theorem C1_no_fetch_counterexample :
    (sampleReducer emptyWorld.state (receivedGraphParams dateOnlyParams)).routes.graphParams.get
        "routeId" = .undefined
    ∧ (actionsOf (handleGraphParams sampleEnv sampleReducer dateOnlyParams emptyWorld).1.log).map
        Action.type = ["RECEIVED_GRAPH_PARAMS", "RESET_GRAPH_DATA", "RESET_INTERVAL_DATA"]
    ∧ (requestsOf (handleGraphParams sampleEnv sampleReducer dateOnlyParams emptyWorld).1.log).map
        Request.url =
      ["https://opentransit-precomputed-stats.s3.amazonaws.com/trip-times/v1/sf-muni/2023/05/01/trip-times_v1_sf-muni_2023-05-01_median.json.gz",
       "https://opentransit-precomputed-stats.s3.amazonaws.com/wait-times/v1/sf-muni/2023/05/01/wait-times_v1_sf-muni_2023-05-01_median.json.gz"] :=
  ⟨rfl, by decide, by decide⟩

/-- Witness of C1: only a route selected. -/
theorem C1_missing_params_reset_witness :
    (∃ k ∈ ["routeId", "directionId", "startStopId", "endStopId"],
        truthy (Params.get [("routeId", QVal.str "14")] k) = false)
    ∧ requestsOf (handleGraphParams sampleEnv sampleReducer [("routeId", QVal.str "14")]
        emptyWorld).1.log = [] := by
  have h := C1_missing_params_reset sampleEnv sampleReducer [("routeId", QVal.str "14")]
    emptyWorld [("routeId", QVal.str "14")] rfl ⟨"directionId", by decide, rfl⟩
  refine ⟨⟨"directionId", by decide, rfl⟩, ?_⟩
  obtain ⟨reqs, hreq, -, hnil⟩ := h.2.2
  rw [hreq, hnil rfl]
  rfl

/-- Witness of C2: every field selected. -/
theorem C2_all_params_fetch_witness :
    (∀ k ∈ ["routeId", "directionId", "startStopId", "endStopId"],
        truthy (fullParams.get k) = true)
    ∧ (handleGraphParams sampleEnv sampleReducer fullParams emptyWorld).2 = none
    ∧ (intervalParamsOf fullParams).hasKey "startTime" = false :=
  ⟨by decide,
   (C2_all_params_fetch sampleEnv sampleReducer fullParams emptyWorld fullParams rfl
      (by decide)).1,
   (C2_all_params_fetch sampleEnv sampleReducer fullParams emptyWorld fullParams rfl
      (by decide)).2.2.2.1⟩

/-- Witness of C9: only a date selected. -/
theorem C9_params_first_then_date_gate_witness :
    (sampleReducer emptyWorld.state (receivedGraphParams dateOnlyParams)).routes.graphParams
        = dateOnlyParams
    ∧ (handleGraphParams sampleEnv sampleReducer dateOnlyParams emptyWorld).2 = none :=
  ⟨rfl, (C9_params_first_then_date_gate sampleEnv sampleReducer dateOnlyParams emptyWorld
      dateOnlyParams rfl).1⟩

/-- Witness of C4: the date 2023-05-01 on the empty store. -/
theorem C4_cache_miss_two_requests_witness :
    dateOnlyParams.get "date" = .str ("2023" ++ "-" ++ "05" ++ "-" ++ "01")
    ∧ lookupLast emptyWorld.state.routes.tripTimesCache (cacheKey dateOnlyParams) = none
    ∧ (fetchPrecomputedWaitAndTripData sampleEnv dateOnlyParams emptyWorld).2 = none := by
  have h := (C4_cache_miss_two_requests sampleEnv dateOnlyParams emptyWorld "2023" "05" "01"
    (by decide) (by decide) (by decide) rfl rfl rfl).1
  exact ⟨rfl, rfl, by rw [h]⟩

/-- C5 (as stated) fails: after a successful trip-times fetch whose body is
`null` was stored under the key it carries, the cache is populated under that
key, and the repeated call issues the trip-times request a second time. -/
theorem C5_falsy_payload_counterexample :
    lookupLast
        (deliver sampleReducer (.tripTimes (.str "2023-05-01") "") (.resolved [("data", .null)])
          (fetchPrecomputedWaitAndTripData sampleEnv dateOnlyParams emptyWorld).1
        ).state.routes.tripTimesCache (cacheKey dateOnlyParams) = some .null
    ∧ ((requestsOf (fetchPrecomputedWaitAndTripData sampleEnv dateOnlyParams
          (deliver sampleReducer (.tripTimes (.str "2023-05-01") "")
            (.resolved [("data", .null)])
            (fetchPrecomputedWaitAndTripData sampleEnv dateOnlyParams emptyWorld).1)).1.log).filter
        Request.isTripTimes).map Request.url =
      ["https://opentransit-precomputed-stats.s3.amazonaws.com/trip-times/v1/sf-muni/2023/05/01/trip-times_v1_sf-muni_2023-05-01_median.json.gz",
       "https://opentransit-precomputed-stats.s3.amazonaws.com/trip-times/v1/sf-muni/2023/05/01/trip-times_v1_sf-muni_2023-05-01_median.json.gz"] :=
  ⟨rfl, by decide⟩

/-- Witness of C5: a store whose trip-times cache holds a truthy payload. -/
theorem C5_truthy_cache_entry_not_refetched_witness :
    dateOnlyParams.get "date" = .str "2023-05-01"
    ∧ ∃ reqs : List Request,
        fetchPrecomputedWaitAndTripData sampleEnv dateOnlyParams cachedWorld =
          ({ cachedWorld with log := cachedWorld.log ++ reqs.map Effect.request }, none)
        ∧ ∀ q ∈ reqs, q.isTripTimes = false := by
  obtain ⟨reqs, h1, h2, -⟩ :=
    C5_truthy_cache_entry_not_refetched sampleEnv dateOnlyParams cachedWorld "2023-05-01" rfl
  exact ⟨rfl, reqs, h1, h2 rfl⟩

/-- Witness of C8: the date 2023-05-01 on the empty store. -/
theorem C8_failures_silent_and_retried_witness :
    dateOnlyParams.get "date" = .str "2023-05-01"
    ∧ deliver sampleReducer (.tripTimes (.str "2023-05-01") "") (.rejected networkError)
        emptyWorld = emptyWorld :=
  ⟨rfl, ((C8_failures_silent_and_retried sampleEnv sampleReducer dateOnlyParams emptyWorld
      "2023-05-01" networkError [] rfl).1 (.str "2023-05-01") "" emptyWorld).2⟩

/-- C3 (as stated) fails at the empty string: the error response has the body
`{error: ""}` and the payload of the error event is the message of the
transport error instead. -/
theorem C3_empty_error_counterexample :
    Obj.get (serverError "") "response" = .obj [("status", .num 500),
        ("data", .obj [("error", .str "")])]
    ∧ settle (.graphData fullParams) (.rejected (serverError "")) =
        [{ type := "RECEIVED_GRAPH_ERROR", payload := .str "Request failed with status code 500",
           graphParams := none }]
    ∧ settle (.intervalData fullParams) (.rejected (serverError "")) =
        [{ type := "RECEIVED_INTERVAL_ERROR",
           payload := .str "Request failed with status code 500", graphParams := none }]
    ∧ JSVal.str "Request failed with status code 500" ≠ JSVal.str "" :=
  ⟨rfl, rfl, rfl, by simp⟩

/-- Witness of C3: a server error with a message, and a network error. -/
theorem C3_error_payload_witness :
    ("No data" ≠ "" ∧ Obj.get networkError "response" = .undefined)
    ∧ settle (.graphData fullParams) (.rejected (serverError "No data")) =
        [{ type := "RECEIVED_GRAPH_ERROR", payload := .str "No data", graphParams := none }]
    ∧ settle (.intervalData fullParams) (.rejected networkError) =
        [{ type := "RECEIVED_INTERVAL_ERROR", payload := .str "Network Error",
           graphParams := none }] :=
  ⟨⟨by decide, rfl⟩,
   ((C3_error_payload fullParams (serverError "No data")).1 "No data"
      [("status", .num 500), ("data", .obj [("error", .str "No data")])]
      (by decide) rfl rfl).1,
   ((C3_error_payload fullParams networkError).2 rfl).2⟩

/-- C6 (as stated) fails in two ways.  When the routes request succeeds with
the body `null`, the one event dispatched is `RECEIVED_ROUTES_ERROR`, not
`RECEIVED_ROUTES`.  And when the metrics request succeeds and the dispatch of
`RECEIVED_GRAPH_DATA` throws, the `.catch` chained after `.then` dispatches
`RECEIVED_GRAPH_ERROR` as well: two events for one successful request. -/
theorem C6_terminal_event_counterexample :
    (settle .routes (.resolved [("status", .num 200), ("data", .null)])).map Action.type
      = ["RECEIVED_ROUTES_ERROR"]
    ∧ (settleWith (throwsOn "RECEIVED_GRAPH_DATA" (.obj [("message", .str "render failed")]))
        (.graphData fullParams) (.resolved [("status", .num 200), ("data", .obj [])])).map
          Action.type
      = ["RECEIVED_GRAPH_DATA", "RECEIVED_GRAPH_ERROR"] := by
  decide

/-- Witness of C6: a routes document on a store whose dispatch never throws. -/
theorem C6_one_terminal_event_witness :
    ((∀ a : Action, neverThrows a = none)
      ∧ Obj.get [("data", JSVal.obj [("routes", .arr [])])] "data" ≠ .null
      ∧ Obj.get [("data", JSVal.obj [("routes", .arr [])])] "data" ≠ .undefined)
    ∧ (settleWith neverThrows .routes (.rejected networkError)).length = 1
    ∧ ∃ routes : JSVal,
        getProp (Obj.get [("data", JSVal.obj [("routes", .arr [])])] "data") "routes" = .ok routes
        ∧ settleWith neverThrows .routes (.resolved [("data", JSVal.obj [("routes", .arr [])])]) =
            [{ type := "RECEIVED_ROUTES", payload := routes, graphParams := none }] := by
  have hn : Obj.get [("data", JSVal.obj [("routes", .arr [])])] "data" ≠ .null := by
    simp [Obj.get, lookupLast]
  have hu : Obj.get [("data", JSVal.obj [("routes", .arr [])])] "data" ≠ .undefined := by
    simp [Obj.get, lookupLast]
  have h := C6_one_terminal_event sampleEnv fullParams emptyWorld (.rejected networkError)
    neverThrows
  obtain ⟨routes, hr, hs⟩ := (h.2.2.1 [("data", JSVal.obj [("routes", .arr [])])]).2.2 hn hu
  exact ⟨⟨fun _ => rfl, hn, hu⟩, (h.2.1 (fun _ => rfl)).2.2, routes, hr, hs rfl⟩

/-- C7 fails on the code: for a graphParams object with date 2023-05-01 and
routeId 14, `fetchArrivals` requests the file of the route `undefined`, and
the payload of `RECEIVED_ARRIVALS` carries `undefined` as route id. -/
theorem C7_route_id_is_undefined :
    routeDayParams.get "routeId" = .str "14"
    ∧ (requestsOf (fetchArrivals routeDayParams emptyWorld).1.log).map Request.url =
      ["https://opentransit-stop-arrivals.s3.amazonaws.com/v4/sf-muni/2023/05/01/arrivals_v4_sf-muni_2023-05-01_undefined.json.gz"]
    ∧ (requestsOf (fetchArrivals routeDayParams emptyWorld).1.log).map
        (fun q => settle q.handler (.resolved [("data", .str "body")])) =
      [[{ type := "RECEIVED_ARRIVALS",
          payload := .arr [.str "body", .str "2023-05-01", .undefined],
          graphParams := none }]] :=
  ⟨rfl, by decide, rfl⟩

/-- C10 (as stated) fails: two queries with the same date and startTime, one
without endTime and one whose endTime is the text `undefined`, satisfy the
conditions, share their cache key, and differ in endTime. -/
theorem C10_endTime_counterexample :
    cacheKey [("date", .str "2023-05-01"), ("startTime", .str "07:00")]
      = cacheKey [("date", .str "2023-05-01"), ("startTime", .str "07:00"),
          ("endTime", .str "undefined")]
    ∧ truthy (Params.get [("date", .str "2023-05-01"), ("startTime", .str "07:00")] "startTime")
        = true
    ∧ truthy (Params.get [("date", .str "2023-05-01"), ("startTime", .str "07:00"),
          ("endTime", .str "undefined")] "startTime") = true
    ∧ '-' ∉ "07:00".data ∧ '-' ∉ "undefined".data
    ∧ Params.get [("date", .str "2023-05-01"), ("startTime", .str "07:00")] "endTime"
        = .undefined
    ∧ Params.get [("date", .str "2023-05-01"), ("startTime", .str "07:00"),
          ("endTime", .str "undefined")] "endTime" = .str "undefined"
    ∧ JSVal.undefined ≠ JSVal.str "undefined" :=
  ⟨by decide, by decide, by decide, by decide, by decide, rfl, rfl, by simp⟩

/-- Witness of C10: the same day and time range asked for two routes. -/
theorem C10_cache_key_separates_witness :
    cacheKey fullParams = cacheKey otherRouteParams
    ∧ fullParams.get "startTime" = otherRouteParams.get "startTime"
    ∧ fullParams.get "endTime" = otherRouteParams.get "endTime" := by
  have hst : ∀ s : String, JSVal.str "07:00" = .str s → '-' ∉ s.data := by
    intro s hs
    rw [← JSVal.str.inj hs]
    decide
  have het : ∀ s : String, JSVal.str "10:00" = .str s → '-' ∉ s.data := by
    intro s hs
    rw [← JSVal.str.inj hs]
    decide
  have h := C10_cache_key_separates fullParams otherRouteParams "2023" "05" "01" "2023" "05" "01"
    (by decide) (by decide) (by decide) (by decide) (by decide) (by decide) rfl rfl
    hst het hst het rfl
  exact ⟨rfl, (h.2.2.2 rfl rfl).1, (h.2.2.2 rfl rfl).2.2 rfl rfl⟩

end MetricsMvp
